import Mathlib

/-!
Shallow embedding of the "AI APK compiler" single-page application
(sphr503-ai/Ai-apk-compiler): the pipeline status enumeration of
`src/types.ts`, the log / source-file / provisioning view-model records,
the two generative-AI wrappers of `src/services/geminiService.ts`, and the
state-changing operations (`addLog`, `handleFileChange`, `runProvisioning`,
`startPipeline`, `handleDownload`, the "Flush Pipeline" reset) of the two
application components the claims cite: the App defined in
`src/unnamed/part_001` (identical, up to one log message, to the second App
definition in `src/App.tsx`) and the App defined in
`src/components/Terminal.tsx`.

React `useState` cells are collected into explicit state records; each
operation is a function from state (plus its inputs and the outcomes of the
external generative-AI calls) to state, also returning the ordered list of
`setStatus` writes it performed.  `Math.random()` is an input stream of
rationals in `[0, 1)`; wall-clock timestamps are an input stream of strings.
-/

set_option maxRecDepth 4000
set_option maxHeartbeats 1000000

/-- The status identifiers referenced through `SystemStatus.<key>` anywhere in
the application code.  `src/types.ts` declares eight of them; the App
components additionally reference `SystemStatus.GENERATING_CODE`, which
`src/types.ts` does not declare. -/
inductive StatusKey where
  | IDLE
  | PROVISIONING
  | ANALYZING
  | BUILDING
  | SELF_HEALING
  | TESTING
  | COMPLETED
  | FAILED
  | GENERATING_CODE
deriving DecidableEq, Repr

/-- The `SystemStatus` enum object of `src/types.ts`: the runtime value of the
property access `SystemStatus.<key>` (`none` = the JavaScript `undefined`
produced by accessing a property the enum does not declare). -/
def systemStatusLookup : StatusKey → Option String
  | .IDLE => some "IDLE"
  | .PROVISIONING => some "PROVISIONING"
  | .ANALYZING => some "ANALYZING"
  | .BUILDING => some "BUILDING"
  | .SELF_HEALING => some "SELF_HEALING"
  | .TESTING => some "TESTING"
  | .COMPLETED => some "COMPLETED"
  | .FAILED => some "FAILED"
  | .GENERATING_CODE => none

/-- The eight members the `SystemStatus` enum of `src/types.ts` declares. -/
def systemStatusMembers : List StatusKey :=
  [.IDLE, .PROVISIONING, .ANALYZING, .BUILDING, .SELF_HEALING, .TESTING,
   .COMPLETED, .FAILED]

/-- The severity tags of `LogEntry.type` in `src/types.ts`. -/
inductive LogType where
  | info
  | error
  | success
  | warning
  | ai
deriving DecidableEq, Repr

/-- `LogEntry` of `src/types.ts`. -/
structure LogEntry where
  timestamp : String
  message : String
  type : LogType
deriving DecidableEq, Repr

/-- `SourceFile` record (name, path, language tag, text content) used by the
`sourceFiles` state of the App components. -/
structure SourceFile where
  name : String
  path : String
  language : String
  content : String
deriving DecidableEq, Repr

/-- `ProvisioningState` of `src/types.ts` (the four boolean checklist flags the
part_001 and Terminal.tsx App variants use). -/
structure ProvisioningState where
  java : Bool
  androidStudio : Bool
  sdk : Bool
  avd : Bool
deriving DecidableEq, Repr

/-- A browser `File` object as the application sees it: the code only ever
reads `name` and `size`; the content bytes are carried but never inspected. -/
structure JsFile where
  name : String
  size : Nat
  bytes : Nat → Nat

/-- The `inputMode` state: `'url' | 'upload'`. -/
inductive InputMode where
  | url
  | upload
deriving DecidableEq, Repr

/-- The `activeTab` state of the part_001 App: `'terminal' | 'source'`. -/
inductive AppTab where
  | terminal
  | source
deriving DecidableEq, Repr

/-- A supply of wall-clock timestamp strings
(`new Date().toLocaleTimeString()`), indexed by how many log entries exist
when the timestamp is taken. -/
abbrev Clock := Nat → String

/-- Locate the first occurrence of `pat` in `cs`, returning the characters
before it and the characters after it. -/
def findSplit (pat : List Char) : Nat → List Char → Option (List Char × List Char)
  | 0, _ => none
  | fuel + 1, cs =>
    if pat.isPrefixOf cs then some ([], cs.drop pat.length)
    else
      match cs with
      | [] => none
      | c :: rest =>
        match findSplit pat fuel rest with
        | some (pre, post) => some (c :: pre, post)
        | none => none

/-- JavaScript `String.prototype.replace` with a string pattern: replaces the
first occurrence of `pat` in `s` by `repl` (and returns `s` unchanged when
`pat` does not occur). -/
def jsReplace (s pat repl : String) : String :=
  match findSplit pat.data (s.length + 1) s.data with
  | some (pre, post) => String.mk (pre ++ repl.data ++ post)
  | none => s

/-- Rendering of `x?.name` inside a template literal: `undefined` when the
file is absent. -/
def jsOptName (f : Option JsFile) : String :=
  match f with
  | some file => file.name
  | none => "undefined"

/-- Boolean error test on `Except`. -/
def isErrB {ε α : Type} : Except ε α → Bool
  | .error _ => true
  | .ok _ => false

/-- The whitespace characters removed by JavaScript `String.prototype.trim`
(the ASCII ones; the application never feeds it exotic Unicode spaces). -/
def isJsTrimWs (c : Char) : Bool :=
  c == ' ' || c == '\t' || c == '\n' || c == Char.ofNat 13 ||
  c == Char.ofNat 11 || c == Char.ofNat 12

/-- JavaScript `String.prototype.trim` on a character list. -/
def trimChars (cs : List Char) : List Char :=
  ((cs.dropWhile isJsTrimWs).reverse.dropWhile isJsTrimWs).reverse

/-- ASCII lower-casing of one character (`String.prototype.toLowerCase` on the
ASCII file names this application handles). -/
def lowerChar (c : Char) : Char :=
  if 'A' ≤ c && c ≤ 'Z' then Char.ofNat (c.toNat + 32) else c

/-- `name.toLowerCase().endsWith(suffixText)`. -/
def lowerEndsWith (name suffixText : String) : Bool :=
  suffixText.data.isSuffixOf (name.data.map lowerChar)

/-! ### A model of `JSON.parse`

`analyzeBuildError` ends in `return JSON.parse(response.text)`; the JSON.parse
builtin throws a `SyntaxError` exactly when its argument is not a valid JSON
text.  The recogniser below implements the JSON grammar (RFC 8259 values,
with the four JSON whitespace characters) by fuelled recursive descent. -/

/-- Parsed JSON values.  Numbers keep their source lexeme. -/
inductive Json where
  | null
  | boolean (b : Bool)
  | num (raw : String)
  | str (s : String)
  | arr (elems : List Json)
  | obj (fields : List (String × Json))
deriving Repr

def isJsonWs (c : Char) : Bool :=
  c == ' ' || c == '\t' || c == '\n' || c == '\r'

def skipWs : List Char → List Char
  | [] => []
  | c :: cs => if isJsonWs c then skipWs cs else c :: cs

def isHexDigit (c : Char) : Bool :=
  c.isDigit || ('a' ≤ c && c ≤ 'f') || ('A' ≤ c && c ≤ 'F')

def hexVal (c : Char) : Nat :=
  if c.isDigit then c.toNat - '0'.toNat
  else if 'a' ≤ c && c ≤ 'f' then c.toNat - 'a'.toNat + 10
  else c.toNat - 'A'.toNat + 10

/-- Parse the remainder of a JSON string literal (the opening quote already
consumed); `acc` holds the decoded characters in reverse. -/
def pstr : Nat → List Char → List Char → Option (String × List Char)
  | 0, _, _ => none
  | _ + 1, _, [] => none
  | fuel + 1, acc, c :: cs =>
    if c == '"' then some (String.mk acc.reverse, cs)
    else if c == '\\' then
      match cs with
      | [] => none
      | e :: cs2 =>
        if e == '"' then pstr fuel ('"' :: acc) cs2
        else if e == '\\' then pstr fuel ('\\' :: acc) cs2
        else if e == '/' then pstr fuel ('/' :: acc) cs2
        else if e == 'b' then pstr fuel (Char.ofNat 8 :: acc) cs2
        else if e == 'f' then pstr fuel (Char.ofNat 12 :: acc) cs2
        else if e == 'n' then pstr fuel ('\n' :: acc) cs2
        else if e == 'r' then pstr fuel (Char.ofNat 13 :: acc) cs2
        else if e == 't' then pstr fuel ('\t' :: acc) cs2
        else if e == 'u' then
          match cs2 with
          | h1 :: h2 :: h3 :: h4 :: cs3 =>
            if isHexDigit h1 && isHexDigit h2 && isHexDigit h3 && isHexDigit h4 then
              pstr fuel
                (Char.ofNat (((hexVal h1 * 16 + hexVal h2) * 16 + hexVal h3) * 16 + hexVal h4) :: acc)
                cs3
            else none
          | _ => none
        else none
    else if c.toNat < 32 then none
    else pstr fuel (c :: acc) cs

/-- Exponent part of a JSON number (after `e`/`E`). -/
def pnumExp (acc : List Char) (cs : List Char) : Option (String × List Char) :=
  match cs with
  | 'e' :: cs1 | 'E' :: cs1 =>
    let (sgn, cs2) :=
      match cs1 with
      | '+' :: r => (['+'], r)
      | '-' :: r => (['-'], r)
      | r => (([] : List Char), r)
    let (ds, cs3) := cs2.span Char.isDigit
    if ds.isEmpty then none
    else some (String.mk (acc ++ 'e' :: sgn ++ ds), cs3)
  | _ => some (String.mk acc, cs)

/-- Fraction and exponent parts of a JSON number. -/
def pnumFrac (acc : List Char) (cs : List Char) : Option (String × List Char) :=
  match cs with
  | '.' :: cs1 =>
    let (ds, cs2) := cs1.span Char.isDigit
    if ds.isEmpty then none else pnumExp (acc ++ '.' :: ds) cs2
  | _ => pnumExp acc cs

/-- A JSON number: `-?(0|[1-9][0-9]*)(\.[0-9]+)?([eE][+-]?[0-9]+)?`. -/
def pnum (cs : List Char) : Option (String × List Char) :=
  let (neg, cs1) :=
    match cs with
    | '-' :: r => (['-'], r)
    | r => (([] : List Char), r)
  match cs1 with
  | '0' :: r => pnumFrac (neg ++ ['0']) r
  | c :: r =>
    if c.isDigit then
      let (ds, r2) := r.span Char.isDigit
      pnumFrac (neg ++ c :: ds) r2
    else none
  | [] => none

mutual

/-- A JSON value (leading whitespace allowed). -/
def pval : Nat → List Char → Option (Json × List Char)
  | 0, _ => none
  | fuel + 1, cs =>
    match skipWs cs with
    | [] => none
    | 't' :: cs2 =>
      match cs2 with
      | 'r' :: 'u' :: 'e' :: r => some (.boolean true, r)
      | _ => none
    | 'f' :: cs2 =>
      match cs2 with
      | 'a' :: 'l' :: 's' :: 'e' :: r => some (.boolean false, r)
      | _ => none
    | 'n' :: cs2 =>
      match cs2 with
      | 'u' :: 'l' :: 'l' :: r => some (.null, r)
      | _ => none
    | '"' :: cs2 =>
      match pstr fuel [] cs2 with
      | some (s, r) => some (.str s, r)
      | none => none
    | '{' :: cs2 =>
      match skipWs cs2 with
      | '}' :: r => some (.obj [], r)
      | cs3 => pmembers fuel [] cs3
    | '[' :: cs2 =>
      match skipWs cs2 with
      | ']' :: r => some (.arr [], r)
      | cs3 => pelems fuel [] cs3
    | c :: cs2 =>
      if c == '-' || c.isDigit then
        match pnum (c :: cs2) with
        | some (raw, r) => some (.num raw, r)
        | none => none
      else none

/-- The members of a JSON object (first member not yet consumed). -/
def pmembers : Nat → List (String × Json) → List Char → Option (Json × List Char)
  | 0, _, _ => none
  | fuel + 1, acc, cs =>
    match skipWs cs with
    | '"' :: cs2 =>
      match pstr fuel [] cs2 with
      | none => none
      | some (key, cs3) =>
        match skipWs cs3 with
        | ':' :: cs4 =>
          match pval fuel cs4 with
          | none => none
          | some (v, cs5) =>
            match skipWs cs5 with
            | ',' :: cs6 => pmembers fuel (acc ++ [(key, v)]) cs6
            | '}' :: cs6 => some (.obj (acc ++ [(key, v)]), cs6)
            | _ => none
        | _ => none
    | _ => none

/-- The elements of a JSON array (first element not yet consumed). -/
def pelems : Nat → List Json → List Char → Option (Json × List Char)
  | 0, _, _ => none
  | fuel + 1, acc, cs =>
    match pval fuel cs with
    | none => none
    | some (v, cs2) =>
      match skipWs cs2 with
      | ',' :: cs3 => pelems fuel (acc ++ [v]) cs3
      | ']' :: cs3 => some (.arr (acc ++ [v]), cs3)
      | _ => none

end

/-- `JSON.parse`: `some` of the parsed value on a valid JSON text, `none`
(a thrown `SyntaxError`) otherwise. -/
def jsonParse (s : String) : Option Json :=
  match pval (2 * s.length + 4) s.data with
  | some (j, rest) => if (skipWs rest).isEmpty then some j else none
  | none => none

/-- Property lookup on a JSON object: later duplicate keys win, as in
`JSON.parse`; property access on any non-object JSON value yields
`undefined`. -/
def jsGet (j : Json) (k : String) : Option Json :=
  match j with
  | .obj fields => fields.foldl (fun acc p => if p.1 == k then some p.2 else acc) none
  | _ => none

mutual

/-- ECMAScript string conversion of a parsed JSON value, as used when the
value is spliced into a template literal (numbers are rendered by their
source lexeme). -/
def jsToString : Json → String
  | .null => "null"
  | .boolean true => "true"
  | .boolean false => "false"
  | .num raw => raw
  | .str s => s
  | .arr xs => jsArrString xs
  | .obj _ => "[object Object]"

def jsArrString : List Json → String
  | [] => ""
  | [x] => jsToString x
  | x :: xs => jsToString x ++ "," ++ jsArrString xs

end

/-- Template-literal rendering of a possibly-`undefined` property value. -/
def jsShow (o : Option Json) : String :=
  match o with
  | none => "undefined"
  | some j => jsToString j

/-! ### `src/services/geminiService.ts` -/

namespace GeminiService

/-- Possible exceptions thrown by the two service functions. -/
inductive GemError where
  | missingKey
  | apiFailure (msg : String)
  | parseFailure
  | emptyResponse
deriving DecidableEq, Repr

/-- `err.message` of each exception.  The `parseFailure` text is the
engine-specific `SyntaxError` message of `JSON.parse`. -/
def GemError.message : GemError → String
  | .missingKey => "API_KEY not found. Please provide one."
  | .apiFailure m => m
  | .parseFailure => "Unexpected token in JSON"
  | .emptyResponse => "AI generation yielded an empty response."

/-- `getApiKey`: a truthy `manualKey` wins, otherwise
`process.env.API_KEY || ''` (the empty string when the variable is unset,
empty, or `process.env` is unavailable). -/
def getApiKey (manualKey envKey : Option String) : String :=
  match manualKey with
  | some k => if k == "" then envKey.getD "" else k
  | none => envKey.getD ""

/-- The outcome of one `ai.models.generateContent` call: either the promise
rejected (with the rejection's message), or it resolved and `response.text`
is the given optional string (`none` = `undefined`). -/
abbrev CallOutcome := Except String (Option String)

/-- `analyzeBuildError(errorLog, manualKey)` given the environment key and the
outcome of its `generateContent` call.  Faithfully: throw when the key is
missing, propagate a rejected call, and otherwise `JSON.parse` the response
text (`undefined` stringifies to `"undefined"`, which is not valid JSON). -/
def analyzeBuildError (errorLog : String) (manualKey envKey : Option String)
    (call : CallOutcome) : Except GemError Json :=
  let _ := errorLog
  let apiKey := getApiKey manualKey envKey
  if apiKey == "" then .error .missingKey
  else
    match call with
    | .error m => .error (.apiFailure m)
    | .ok t =>
      match jsonParse (t.getD "undefined") with
      | some j => .ok j
      | none => .error .parseFailure

/-- One pass of `cleaned.replace(/^```python\n?/gm, ...)`-style cleaning:
remove `pat` wherever it starts a line, together with the newline that
follows it (if any).  `lineStart` tracks whether the scan position is at the
start of a line. -/
def stripAtLineStarts (pat : List Char) : Nat → Bool → List Char → List Char
  | 0, _, cs => cs
  | _ + 1, _, [] => []
  | fuel + 1, lineStart, c :: cs =>
    if lineStart && pat.isPrefixOf (c :: cs) then
      match (c :: cs).drop pat.length with
      | '\n' :: rest => stripAtLineStarts pat fuel true rest
      | rest => stripAtLineStarts pat fuel true rest
    else
      c :: stripAtLineStarts pat fuel (c == '\n') cs

/-- Whether a scan position is at the end of a line (end of input or just
before a newline), as the `$` anchor of a multiline regex sees it. -/
def atLineEnd (cs : List Char) : Bool :=
  cs.isEmpty || cs.headD ' ' == '\n'

/-- One pass of `cleaned.replace(/\n?```$/gm, '')`: remove a ```` ``` ```` that
ends a line, together with the newline that precedes it (if any). -/
def stripFenceAtLineEnds : Nat → List Char → List Char
  | 0, cs => cs
  | _ + 1, [] => []
  | fuel + 1, c :: cs =>
    if c == '\n' && ['`', '`', '`'].isPrefixOf cs && atLineEnd (cs.drop 3) then
      stripFenceAtLineEnds fuel (cs.drop 3)
    else if c == '`' && ['`', '`'].isPrefixOf cs && atLineEnd (cs.drop 2) then
      stripFenceAtLineEnds fuel (cs.drop 2)
    else
      c :: stripFenceAtLineEnds fuel cs

/-- The "robust cleaning" applied to the generated Python script: trim, then
strip ```` ```python ```` and ```` ``` ```` at line starts and ```` ``` ```` at
line ends. -/
def cleanScript (raw : String) : String :=
  let s1 := trimChars raw.data
  let c1 := stripAtLineStarts "```python".data (s1.length + 1) true s1
  let c2 := stripAtLineStarts "```".data (c1.length + 1) true c1
  String.mk (stripFenceAtLineEnds (c2.length + 1) c2)

/-- `generateSelfHealingPythonScript(manualKey)` given the environment key and
the outcome of its `generateContent` call: throw when the key is missing,
propagate a rejected call, throw on a falsy (`undefined` or empty) response
text, otherwise return the cleaned script. -/
def generateSelfHealingPythonScript (manualKey envKey : Option String)
    (call : CallOutcome) : Except GemError String :=
  let apiKey := getApiKey manualKey envKey
  if apiKey == "" then .error .missingKey
  else
    match call with
    | .error m => .error (.apiFailure m)
    | .ok t =>
      match t with
      | none => .error .emptyResponse
      | some txt =>
        if txt == "" then .error .emptyResponse
        else .ok (cleanScript txt)

end GeminiService

/-! ### The App component of `src/unnamed/part_001`

This is the variant with the three-cycle scripted build loop; the second App
definition in `src/App.tsx` (lines 470-1039) is identical to it up to the
wording of the final success log line. -/

namespace AppM

/-- The `useState` cells of the part_001 App component. -/
structure State where
  status : StatusKey
  logs : List LogEntry
  provisioning : ProvisioningState
  projectUrl : String
  selectedFile : Option JsFile
  inputMode : InputMode
  selfHealingScript : Option String
  retryCount : Nat
  activeTab : AppTab
  sourceFiles : List SourceFile
  selectedSourceIndex : Nat
  downloadProgress : Nat
  isPreparingDownload : Bool

/-- `addLog(message, type)`: append one entry, stamped with the current wall
clock. -/
def addLog (clock : Clock) (s : State) (message : String) (ty : LogType) : State :=
  { s with logs := s.logs ++ [⟨clock s.logs.length, message, ty⟩] }

/-- `handleFileChange`: when a file was picked, remember it and log its
name. -/
def handleFileChange (clock : Clock) (s : State) (picked : Option JsFile) : State :=
  match picked with
  | some file =>
    addLog clock { s with selectedFile := some file }
      ("Attached local source archive: " ++ file.name) .info
  | none => s

/-- A state paired with the list of `setStatus` writes performed so far. -/
abbrev Ctx := State × List StatusKey

/-- `setStatus(k)`, recording the write. -/
def setSt (k : StatusKey) (p : Ctx) : Ctx :=
  ({ p.1 with status := k }, p.2 ++ [k])

/-- `addLog` lifted to a `Ctx`. -/
def logE (clock : Clock) (message : String) (ty : LogType) (p : Ctx) : Ctx :=
  (addLog clock p.1 message ty, p.2)

/-- Any other state update lifted to a `Ctx`. -/
def upd (f : State → State) (p : Ctx) : Ctx :=
  (f p.1, p.2)

/-- `runProvisioning`. -/
def runProvisioning (clock : Clock) (s : State) : Ctx :=
  let p := setSt .PROVISIONING (s, [])
  let p := logE clock "Provisioning high-memory VPS nodes (8GB RAM, 4 vCPUs)..." .warning p
  let p := upd (fun st => { st with provisioning := { st.provisioning with java := true } }) p
  let p := logE clock "Environment: JAVA_HOME initialized at /usr/lib/jvm/java-17-openjdk" .success p
  let p := upd (fun st => { st with provisioning := { st.provisioning with androidStudio := true } }) p
  let p := logE clock "Tooling: Android Studio Dolphin stable linked to /opt/android-studio" .success p
  let p := upd (fun st => { st with provisioning := { st.provisioning with sdk := true } }) p
  let p := logE clock "Core: Android SDK (API 34) and Platform-Tools (34.0.0) active" .success p
  let p := upd (fun st => { st with provisioning := { st.provisioning with avd := true } }) p
  let p := logE clock "Emulator: AVD \"TestDevice\" launched (2GB RAM configuration)" .success p
  let p := setSt .IDLE p
  logE clock "Infrastructure Verified. Ready for code ingestion." .info p

/-- The guard at the top of `startPipeline`:
`(inputMode === 'url' && !projectUrl) || (inputMode === 'upload' && !selectedFile)`. -/
def missingInput (s : State) : Bool :=
  (s.inputMode == .url && s.projectUrl == "") ||
  (s.inputMode == .upload && s.selectedFile.isNone)

/-- The initial content of the generated `MainActivity.kt`. -/
def mainActivityV0 : String :=
  "package com.example.app\n\nimport android.os.Bundle\nimport androidx.appcompat.app.AppCompatActivity\n\nclass MainActivity : AppCompatActivity() \x7b\n    override fun onCreate(savedInstanceState: Bundle?) \x7b\n        super.onCreate(savedInstanceState)\n        setContentView(R.layout.activity_main)\n    \x7d\n\x7d"

/-- The initial content of the generated `build.gradle`. -/
def buildGradleV0 : String :=
  "plugins \x7b\n    id 'com.android.application'\n    id 'org.jetbrains.kotlin.android'\n\x7d\n\nandroid \x7b\n    compileSdk 34\n    defaultConfig \x7b\n        applicationId \"com.example.app\"\n        minSdk 24\n        targetSdk 34\n        versionCode 1\n        versionName \"1.0\"\n    \x7d\n\x7d"

/-- The `initialFiles` list materialised by `startPipeline`. -/
def initialFiles : List SourceFile :=
  [⟨"MainActivity.kt", "app/src/main/java/com/example/app/MainActivity.kt", "kotlin",
    mainActivityV0⟩,
   ⟨"build.gradle", "app/build.gradle", "gradle", buildGradleV0⟩]

/-- The first self-healing patch: on every record named `build.gradle`,
replace (the first occurrence of) `android {` by an explicit namespace
declaration; all other records are returned unchanged. -/
def patchGradle (files : List SourceFile) : List SourceFile :=
  files.map fun f =>
    if f.name == "build.gradle" then
      { f with content :=
          (jsReplace f.content "android \x7b"
            "android \x7b\n    namespace \"com.example.app\"") }
    else f

/-- The second self-healing patch: on every record named `MainActivity.kt`,
append the scripted memory optimisations after `setContentView`. -/
def patchMain (files : List SourceFile) : List SourceFile :=
  files.map fun f =>
    if f.name == "MainActivity.kt" then
      { f with content :=
          (jsReplace f.content "setContentView(R.layout.activity_main)"
            "setContentView(R.layout.activity_main)\n        // Optimized for 2GB RAM Devices\n        System.gc()\n        window.setFlags(WindowManager.LayoutParams.FLAG_HARDWARE_ACCELERATED, WindowManager.LayoutParams.FLAG_HARDWARE_ACCELERATED)") }
    else f

/-- The `while (currentRetry < maxRetries && !isStable)` loop of
`startPipeline` (`maxRetries = 3`).  Each call checks the loop condition once;
every iteration either increments `currentRetry` or sets `isStable`, so the
loop performs at most `maxRetries + 1` condition checks and fuel
`maxRetries + 1 = 4` reproduces it exactly. -/
def buildLoop (clock : Clock) : Nat → Nat → Bool → Ctx → Ctx × Bool
  | 0, _, isStable, p => (p, isStable)
  | fuel + 1, currentRetry, isStable, p =>
    if currentRetry < 3 && !isStable then
      let p := upd (fun st => { st with retryCount := currentRetry }) p
      let p := setSt .BUILDING p
      let p := logE clock
        ("Build Cycle #" ++ toString (currentRetry + 1) ++ ": Compiling project dependencies...")
        .warning p
      if currentRetry == 0 then
        let p := logE clock "Build Failure: namespace not specified in build.gradle." .error p
        let p := setSt .SELF_HEALING p
        let p := logE clock "✦ Agent: Analyzing build.gradle for AGP 8.0 compatibility..." .ai p
        let p := upd (fun st => { st with sourceFiles := patchGradle st.sourceFiles }) p
        let p := logE clock "Patch Applied: Explicit namespace declared in build.gradle." .success p
        buildLoop clock fuel (currentRetry + 1) isStable p
      else
        let p := logE clock "Build Success: app-debug.apk generated (4.2MB)." .success p
        let p := setSt .TESTING p
        let p := logE clock "Simulation Environment: 2GB RAM Smartphone Node" .info p
        let p := logE clock "adb install -r app-debug.apk" .info p
        let p := logE clock "Launching com.example.app/MainActivity..." .info p
        if currentRetry == 1 then
          let p := logE clock "Runtime Error: java.lang.OutOfMemoryError: Failed to allocate 128MB bitmap" .error p
          let p := logE clock "Device performance check: 2GB RAM exceeded on 4K asset loading." .error p
          let p := setSt .SELF_HEALING p
          let p := logE clock "✦ Agent: Optimization needed for low-memory (2GB) hardware..." .ai p
          let p := upd (fun st => { st with sourceFiles := patchMain st.sourceFiles }) p
          let p := logE clock "Patch Applied: Garbage Collection and Hardware Accel optimizations added." .success p
          buildLoop clock fuel (currentRetry + 1) isStable p
        else
          let p := logE clock "Smoke Test: Activity initialized in 820ms." .success p
          let p := logE clock "Resource Check: 140MB PSS. Status: VERIFIED STABLE." .success p
          buildLoop clock fuel currentRetry true p
    else (p, isStable)

/-- `startPipeline` of the part_001 App.  Returns the new state and the list
of `setStatus` writes it performed. -/
def startPipeline (clock : Clock) (s : State) : Ctx :=
  if missingInput s then
    (addLog clock s "Error: Source input required." .error, [])
  else
    let p : Ctx := ({ s with retryCount := 0 }, [])
    let p := setSt .GENERATING_CODE p
    let p := logE clock "✦ Agent: Designing application architecture layers..." .ai p
    let p := upd (fun st => { st with sourceFiles := initialFiles, activeTab := .source }) p
    let p := logE clock "Source Code generated for \"StoryScape 2.0\"." .success p
    let r := buildLoop clock 4 0 false p
    let p := r.1
    if r.2 then
      let p := setSt .COMPLETED p
      let p := logE clock "Pipeline fully verified. APK ready for local deployment. (you can download by clicking on download button)" .success p
      upd (fun st => { st with activeTab := .terminal }) p
    else
      let p := setSt .FAILED p
      logE clock "Autonomous loop terminated: could not reach stability on 2GB target." .error p

/-- `Math.floor(random * 256)` for one `Math.random()` sample. -/
def floorByte (q : ℚ) : Nat :=
  (Int.floor (q * 256)).toNat

/-- The bytes of the in-memory `ArrayBuffer` built by `handleDownload`:
`setUint32(0, 0x504B0304)` writes the four big-endian header bytes, the loop
fills every later index with `Math.floor(Math.random() * 256)`. -/
def apkBytes (random : Nat → ℚ) : Nat → Nat := fun i =>
  if i = 0 then 0x50
  else if i = 1 then 0x4B
  else if i = 2 then 0x03
  else if i = 3 then 0x04
  else floorByte (random i)

/-- The blob offered for download. -/
structure Download where
  filename : String
  mime : String
  size : Nat
  bytes : Nat → Nat

/-- `handleDownload`: bail out while the download progress is below 100;
otherwise build the 5 MiB fake APK blob, trigger the browser download, and
log one success line. -/
def handleDownload (clock : Clock) (random : Nat → ℚ) (s : State) :
    State × Option Download :=
  if s.downloadProgress < 100 then (s, none)
  else
    (addLog clock s "APK Binary (5.0MB) successfully saved to local storage." .success,
     some ⟨"StoryScape_v2.0_debug.apk", "application/vnd.android.package-archive",
           5 * 1024 * 1024, apkBytes random⟩)

end AppM

/-! ### The App component defined in `src/components/Terminal.tsx`

This is the variant whose `startPipeline` really calls the generative-AI
service, and whose "Flush Pipeline" button resets the log list. -/

namespace TermApp

open GeminiService

/-- The `useState` cells of the Terminal.tsx App component. -/
structure State where
  status : StatusKey
  logs : List LogEntry
  provisioning : ProvisioningState
  projectUrl : String
  selectedFile : Option JsFile
  inputMode : InputMode
  selfHealingScript : Option String

/-- `addLog(message, type)`. -/
def addLog (clock : Clock) (s : State) (message : String) (ty : LogType) : State :=
  { s with logs := s.logs ++ [⟨clock s.logs.length, message, ty⟩] }

/-- A state paired with the list of `setStatus` writes performed so far. -/
abbrev Ctx := State × List StatusKey

/-- `setStatus(k)`, recording the write. -/
def setSt (k : StatusKey) (p : Ctx) : Ctx :=
  ({ p.1 with status := k }, p.2 ++ [k])

/-- `addLog` lifted to a `Ctx`. -/
def logE (clock : Clock) (message : String) (ty : LogType) (p : Ctx) : Ctx :=
  (addLog clock p.1 message ty, p.2)

/-- Any other state update lifted to a `Ctx`. -/
def upd (f : State → State) (p : Ctx) : Ctx :=
  (f p.1, p.2)

/-- ECMAScript `Number.prototype.toFixed(2)` for the non-negative megabyte
values this App displays: round to the nearest hundredth, ties towards the
larger value, and print two decimals. -/
def toFixed2 (q : ℚ) : String :=
  let n : Int := Int.floor (q * 100 + 1 / 2)
  let whole := n / 100
  let frac := (n % 100).toNat
  toString whole ++ "." ++ (if frac < 10 then "0" else "") ++ toString frac

/-- `handleFileChange`: accept only files whose lower-cased name ends in
`.zip`, logging the name and size; reject anything else with an error log
(and clear the file input element, a DOM-only effect). -/
def handleFileChange (clock : Clock) (s : State) (picked : Option JsFile) : State :=
  match picked with
  | none => s
  | some file =>
    if lowerEndsWith file.name ".zip" then
      addLog clock { s with selectedFile := some file }
        ("Archive loaded: " ++ file.name ++ " [" ++
          toFixed2 ((file.size : ℚ) / 1024 / 1024) ++ " MB]") .info
    else
      addLog clock s
        ("Invalid file format: " ++ file.name ++ ". Please upload a .zip archive.")
        .error

/-- `runProvisioning`. -/
def runProvisioning (clock : Clock) (s : State) : Ctx :=
  let p := setSt .PROVISIONING (s, [])
  let p := logE clock "Initiating cloud instance provisioning..." .warning p
  let p := upd (fun st => { st with provisioning := { st.provisioning with java := true } }) p
  let p := logE clock "JAVA_HOME installed: openjdk-17-jdk" .success p
  let p := upd (fun st => { st with provisioning := { st.provisioning with androidStudio := true } }) p
  let p := logE clock "Android Studio stable binaries deployed to /opt/android-studio" .success p
  let p := upd (fun st => { st with provisioning := { st.provisioning with sdk := true } }) p
  let p := logE clock "Command-line tools & build-tools (34.0.0) synchronized" .success p
  let p := upd (fun st => { st with provisioning := { st.provisioning with avd := true } }) p
  let p := logE clock "AVD \"TestDevice\" successfully initialized (x86_64, Hardware Accel)" .success p
  let p := setSt .IDLE p
  logE clock "Environment Ready. Awaiting project instructions." .info p

/-- The "Flush Pipeline" button's onClick handler: clear the logs and reset
status, script, URL and file. -/
def flushPipeline (s : State) : State :=
  { s with logs := [], status := .IDLE, selfHealingScript := none,
           projectUrl := "", selectedFile := none }

/-- The mock error log handed to `analyzeBuildError`. -/
def buildErrorLog : String :=
  "Execution failed for task ':app:processDebugMainManifest'.\n> Namespace not specified. Please specify a namespace in the module's build.gradle file."

/-- The outcomes of the external generative-AI calls, as seen by one run of
`startPipeline`: the configured `process.env.API_KEY` and the outcome of each
of the two `generateContent` calls. -/
structure GemEnv where
  envKey : Option String
  analyzeCall : CallOutcome
  scriptCall : CallOutcome

/-- The guard at the top of this variant's `startPipeline`. -/
def missingInput (s : State) : Bool :=
  (s.inputMode == .url && s.projectUrl == "") ||
  (s.inputMode == .upload && s.selectedFile.isNone)

/-- The scripted part of `startPipeline` before the `try`: the ANALYZING and
BUILDING phases with their canned log lines, ending in the SELF_HEALING
status. -/
def preamble (clock : Clock) (s : State) : Ctx :=
  let p : Ctx := (s, [])
  let p := setSt .ANALYZING p
  let p :=
    if s.inputMode == .url then
      let p := logE clock ("Connecting to remote source: " ++ s.projectUrl) .info p
      logE clock "Git clone successful. Repository indexed." .success p
    else
      let p := logE clock ("Streaming local archive to VPS: " ++ jsOptName s.selectedFile) .info p
      logE clock "File integrity verified. Extraction complete." .success p
  let p := logE clock "Project analysis: Kotlin DSL detected. Gradle 8.2 compatible." .info p
  let p := setSt .BUILDING p
  let p := logE clock "Executing build command: ./gradlew assembleDebug --no-daemon" .info p
  let p := logE clock "Build Failure: Task :app:processDebugMainManifest failed." .error p
  let p := logE clock "Error: namespace not specified in the module's build.gradle file." .error p
  let p := setSt .SELF_HEALING p
  logE clock "✦ Autonomous Agent: Initiating error analysis & self-healing..." .ai p

/-- The catch handler of the outer `try`: log the error message and set the
status to FAILED. -/
def catchFail (clock : Clock) (msg : String) (p : Ctx) : Ctx :=
  setSt .FAILED (logE clock ("Self-healing interrupted: " ++ msg) .error p)

/-- The body of the outer `try` after a successful, non-null analysis: the
analysis log lines, the scripted TESTING phase, COMPLETED, and the inner
`try` around the script generation. -/
def postAnalysis (clock : Clock) (env : GemEnv) (analysis : Json) (p : Ctx) : Ctx :=
  let p := logE clock ("✦ Agent Reasoning: " ++ jsShow (jsGet analysis "issueDescription")) .ai p
  let p := logE clock ("✦ Root Cause: " ++ jsShow (jsGet analysis "rootCause")) .ai p
  let p := logE clock ("Patching file: " ++ jsShow (jsGet analysis "affectedFile") ++ "...") .warning p
  let p := logE clock "Retrying build with patched configuration..." .info p
  let p := logE clock "Build SUCCESSFUL: APK generated at app/build/outputs/apk/debug/app-debug.apk" .success p
  let p := setSt .TESTING p
  let p := logE clock "Synchronizing with AVD \"TestDevice\"..." .info p
  let p := logE clock "Pushing APK to simulator filesystem..." .info p
  let p := logE clock "Installing package via ADB..." .info p
  let p := logE clock "Invoking primary Activity intent..." .info p
  let p := logE clock "Smoke test passed. App is stable." .success p
  let p := setSt .COMPLETED p
  let p := logE clock "Pipeline completed successfully. APK verified." .success p
  match generateSelfHealingPythonScript none env.envKey env.scriptCall with
  | .ok script =>
    let p := upd (fun st => { st with selfHealingScript := some script }) p
    logE clock "Stand-alone Python Self-Healing script generated for export." .success p
  | .error _ =>
    logE clock "Note: Local export script generation skipped (API constraint)." .warning p

/-- `startPipeline` of the Terminal.tsx App.  The scripted build-failure lines
are appended, then `analyzeBuildError` runs inside the outer `try`: a thrown
error is caught, logged as `Self-healing interrupted: <message>` and the
status set to FAILED.  (When the parsed analysis is JSON `null`, the property
access `analysis.issueDescription` itself throws a TypeError, which the same
outer catch handles with the engine's TypeError message.)  On success the
scripted testing lines run, the status becomes COMPLETED, and the inner `try`
around `generateSelfHealingPythonScript` either stores the script or logs a
warning without changing the status. -/
def startPipeline (clock : Clock) (env : GemEnv) (s : State) : Ctx :=
  if s.inputMode == .url && s.projectUrl == "" then
    (addLog clock s "Error: Repository URL required." .error, [])
  else if s.inputMode == .upload && s.selectedFile.isNone then
    (addLog clock s "Error: Project ZIP archive required." .error, [])
  else
    let p := preamble clock s
    match analyzeBuildError buildErrorLog none env.envKey env.analyzeCall with
    | .error e => catchFail clock e.message p
    | .ok analysis =>
      match analysis with
      | .null =>
        catchFail clock "Cannot read properties of null (reading 'issueDescription')" p
      | _ => postAnalysis clock env analysis p

end TermApp

/-! ### Concrete sample inputs and expected run artefacts -/

/-- A fixed timestamp supply for concrete runs. -/
def sampleClock : Clock := fun _ => "10:00:00 AM"

namespace AppM

/-- `build.gradle` after the first self-healing patch. -/
def gradleV1 : String :=
  "plugins \x7b\n    id 'com.android.application'\n    id 'org.jetbrains.kotlin.android'\n\x7d\n\nandroid \x7b\n    namespace \"com.example.app\"\n    compileSdk 34\n    defaultConfig \x7b\n        applicationId \"com.example.app\"\n        minSdk 24\n        targetSdk 34\n        versionCode 1\n        versionName \"1.0\"\n    \x7d\n\x7d"

/-- `MainActivity.kt` after the second self-healing patch. -/
def mainActivityV1 : String :=
  "package com.example.app\n\nimport android.os.Bundle\nimport androidx.appcompat.app.AppCompatActivity\n\nclass MainActivity : AppCompatActivity() \x7b\n    override fun onCreate(savedInstanceState: Bundle?) \x7b\n        super.onCreate(savedInstanceState)\n        setContentView(R.layout.activity_main)\n        // Optimized for 2GB RAM Devices\n        System.gc()\n        window.setFlags(WindowManager.LayoutParams.FLAG_HARDWARE_ACCELERATED, WindowManager.LayoutParams.FLAG_HARDWARE_ACCELERATED)\n    \x7d\n\x7d"

/-- The source-file list after both scripted patches. -/
def finalFiles : List SourceFile :=
  [⟨"MainActivity.kt", "app/src/main/java/com/example/app/MainActivity.kt", "kotlin",
    mainActivityV1⟩,
   ⟨"build.gradle", "app/build.gradle", "gradle", gradleV1⟩]

/-- The (message, severity) pairs appended by one full run of the scripted
pipeline, in order. -/
def pipelineMsgs : List (String × LogType) :=
  [("✦ Agent: Designing application architecture layers...", .ai),
   ("Source Code generated for \"StoryScape 2.0\".", .success),
   ("Build Cycle #1: Compiling project dependencies...", .warning),
   ("Build Failure: namespace not specified in build.gradle.", .error),
   ("✦ Agent: Analyzing build.gradle for AGP 8.0 compatibility...", .ai),
   ("Patch Applied: Explicit namespace declared in build.gradle.", .success),
   ("Build Cycle #2: Compiling project dependencies...", .warning),
   ("Build Success: app-debug.apk generated (4.2MB).", .success),
   ("Simulation Environment: 2GB RAM Smartphone Node", .info),
   ("adb install -r app-debug.apk", .info),
   ("Launching com.example.app/MainActivity...", .info),
   ("Runtime Error: java.lang.OutOfMemoryError: Failed to allocate 128MB bitmap", .error),
   ("Device performance check: 2GB RAM exceeded on 4K asset loading.", .error),
   ("✦ Agent: Optimization needed for low-memory (2GB) hardware...", .ai),
   ("Patch Applied: Garbage Collection and Hardware Accel optimizations added.", .success),
   ("Build Cycle #3: Compiling project dependencies...", .warning),
   ("Build Success: app-debug.apk generated (4.2MB).", .success),
   ("Simulation Environment: 2GB RAM Smartphone Node", .info),
   ("adb install -r app-debug.apk", .info),
   ("Launching com.example.app/MainActivity...", .info),
   ("Smoke Test: Activity initialized in 820ms.", .success),
   ("Resource Check: 140MB PSS. Status: VERIFIED STABLE.", .success),
   ("Pipeline fully verified. APK ready for local deployment. (you can download by clicking on download button)", .success)]

/-- The status writes of one full run of the scripted pipeline, in order. -/
def pipelineTrace : List StatusKey :=
  [.GENERATING_CODE, .BUILDING, .SELF_HEALING, .BUILDING, .TESTING,
   .SELF_HEALING, .BUILDING, .TESTING, .COMPLETED]

/-- An idle post-provisioning state with a URL entered. -/
def sampleUrlState : State :=
  { status := .IDLE, logs := [], provisioning := ⟨true, true, true, true⟩,
    projectUrl := "https://github.com/android/storyscape-pro",
    selectedFile := none, inputMode := .url, selfHealingScript := none,
    retryCount := 0, activeTab := .terminal, sourceFiles := [],
    selectedSourceIndex := 0, downloadProgress := 0,
    isPreparingDownload := false }

/-- The same state with the URL field left empty (missing source input). -/
def sampleNoInputState : State :=
  { sampleUrlState with projectUrl := "" }

/-- A completed state whose download preparation has reached 100. -/
def sampleReadyState : State :=
  { sampleUrlState with status := .COMPLETED, downloadProgress := 100 }

/-- What the scripted-loop claim asserts of one run from state `s`. -/
def scriptedLoopSpec (clock : Clock) (s : State) : Prop :=
  (startPipeline clock s).2 = pipelineTrace ∧
  (startPipeline clock s).2.count .BUILDING = 3 ∧
  (startPipeline clock s).1.logs.map (fun e => (e.message, e.type)) =
    s.logs.map (fun e => (e.message, e.type)) ++ pipelineMsgs ∧
  (startPipeline clock s).1.status = .COMPLETED ∧
  (startPipeline clock s).1.sourceFiles = finalFiles

/-- What the missing-input claim asserts of one run from state `s`: exactly
one error entry is appended and nothing else changes. -/
def missingInputSpec (clock : Clock) (s : State) : Prop :=
  startPipeline clock s =
    ({ s with logs := s.logs ++
        [⟨clock s.logs.length, "Error: Source input required.", .error⟩] }, [])

/-- What the download claim asserts of one `handleDownload` call from state
`s`: a 5 MiB blob with the ZIP magic header and byte values below 256, a
filename ending in `.apk`, and no state change beyond one success log. -/
def downloadSpec (clock : Clock) (random : Nat → ℚ) (s : State) : Prop :=
  ∃ d : Download,
    (handleDownload clock random s).2 = some d ∧
    d.size = 5 * 1024 * 1024 ∧
    d.bytes 0 = 0x50 ∧ d.bytes 1 = 0x4B ∧ d.bytes 2 = 0x03 ∧ d.bytes 3 = 0x04 ∧
    (∀ i, 4 ≤ i → i < d.size → d.bytes i ≤ 255) ∧
    ".apk".data.isSuffixOf d.filename.data = true ∧
    (handleDownload clock random s).1 =
      { s with logs := s.logs ++
          [⟨clock s.logs.length,
            "APK Binary (5.0MB) successfully saved to local storage.", .success⟩] }

/-- The observable part of a picked file: its name and size (everything the
application ever reads). -/
def fileObs (f : JsFile) : String × Nat := (f.name, f.size)

/-- Equality of two states up to the bytes of the selected file. -/
def eqUpToFileBytes (a b : State) : Prop :=
  a.status = b.status ∧ a.logs = b.logs ∧ a.provisioning = b.provisioning ∧
  a.projectUrl = b.projectUrl ∧ a.inputMode = b.inputMode ∧
  a.selfHealingScript = b.selfHealingScript ∧ a.retryCount = b.retryCount ∧
  a.activeTab = b.activeTab ∧ a.sourceFiles = b.sourceFiles ∧
  a.selectedSourceIndex = b.selectedSourceIndex ∧
  a.downloadProgress = b.downloadProgress ∧
  a.isPreparingDownload = b.isPreparingDownload ∧
  a.selectedFile.map fileObs = b.selectedFile.map fileObs

end AppM

namespace TermApp

/-- Equality of two states up to the bytes of the selected file. -/
def eqUpToFileBytes (a b : State) : Prop :=
  a.status = b.status ∧ a.logs = b.logs ∧ a.provisioning = b.provisioning ∧
  a.projectUrl = b.projectUrl ∧ a.inputMode = b.inputMode ∧
  a.selfHealingScript = b.selfHealingScript ∧
  a.selectedFile.map AppM.fileObs = b.selectedFile.map AppM.fileObs

/-- An idle post-provisioning state of the Terminal.tsx App with a URL
entered. -/
def sampleUrlState : State :=
  { status := .IDLE, logs := [], provisioning := ⟨true, true, true, true⟩,
    projectUrl := "https://github.com/android/project-samples",
    selectedFile := none, inputMode := .url, selfHealingScript := none }

/-- A state holding one log entry (to exhibit the flush reset). -/
def sampleOneLogState : State :=
  { sampleUrlState with
    logs := [⟨"09:59:00 AM", "Environment Ready. Awaiting project instructions.", .info⟩] }

/-- A generative-AI environment whose analysis call rejects. -/
def envAnalyzeRejected : GemEnv :=
  ⟨some "key-1", .error "fetch failed", .ok (some "print(1)")⟩

/-- A generative-AI environment where both calls succeed. -/
def envBothOk : GemEnv :=
  ⟨some "key-1",
   .ok (some "\x7b\"issueDescription\":\"missing namespace\",\"rootCause\":\"AGP 8.0\",\"affectedFile\":\"build.gradle\",\"fixCode\":\"namespace\",\"explanation\":\"declare it\"\x7d"),
   .ok (some "print(1)")⟩

/-- A second all-success environment with different response texts. -/
def envBothOk2 : GemEnv :=
  ⟨some "key-1", .ok (some "\x7b\x7d"), .ok (some "print(2)\n")⟩

/-- An environment where only the script-generation call fails. -/
def envScriptRejected : GemEnv :=
  ⟨some "key-1", .ok (some "\x7b\x7d"), .error "quota exceeded"⟩

/-- The parsed analysis object of `envBothOk`. -/
def analysisJson1 : Json :=
  .obj [("issueDescription", .str "missing namespace"),
        ("rootCause", .str "AGP 8.0"),
        ("affectedFile", .str "build.gradle"),
        ("fixCode", .str "namespace"),
        ("explanation", .str "declare it")]

end TermApp

/-! ### The claimed and actual error conditions of the service calls -/

namespace GeminiService

/-- The exact set of conditions under which `analyzeBuildError` throws:
missing key, rejected call, or a response text that is not valid JSON
(an absent text stringifies to `"undefined"`, which is not valid JSON). -/
def analyzeThrowCond (manualKey envKey : Option String) (call : CallOutcome) : Prop :=
  getApiKey manualKey envKey = "" ∨
  match call with
  | .error _ => True
  | .ok t => jsonParse (t.getD "undefined") = none

/-- The exact set of conditions under which
`generateSelfHealingPythonScript` throws: missing key, rejected call, or a
falsy (absent or empty) response text. -/
def scriptThrowCond (manualKey envKey : Option String) (call : CallOutcome) : Prop :=
  getApiKey manualKey envKey = "" ∨
  match call with
  | .error _ => True
  | .ok none => True
  | .ok (some txt) => txt = ""

end GeminiService

namespace TermApp

/-- How the Terminal.tsx `startPipeline` surfaces service errors: an analysis
error is caught, appended as a `Self-healing interrupted:` log line and ends
the run in FAILED; a script-generation error after a successful analysis is
caught, appended as a warning line, and leaves the run COMPLETED with the
script state untouched.  In both cases the log list is only extended. -/
def callerCatchSpec (clock : Clock) (env : GemEnv) (s : State) : Prop :=
  (∀ e, GeminiService.analyzeBuildError buildErrorLog none env.envKey env.analyzeCall
          = .error e →
     (startPipeline clock env s).1.status = .FAILED ∧
     (startPipeline clock env s).2 = [.ANALYZING, .BUILDING, .SELF_HEALING, .FAILED] ∧
     ((startPipeline clock env s).1.logs.getLast?).map (fun l => (l.message, l.type)) =
       some ("Self-healing interrupted: " ++ e.message, .error) ∧
     (∃ t, (startPipeline clock env s).1.logs = s.logs ++ t)) ∧
  (∀ j e, GeminiService.analyzeBuildError buildErrorLog none env.envKey env.analyzeCall
            = .ok j →
     j ≠ .null →
     GeminiService.generateSelfHealingPythonScript none env.envKey env.scriptCall
       = .error e →
     (startPipeline clock env s).1.status = .COMPLETED ∧
     ((startPipeline clock env s).1.logs.getLast?).map (fun l => (l.message, l.type)) =
       some ("Note: Local export script generation skipped (API constraint).", .warning) ∧
     (startPipeline clock env s).1.selfHealingScript = s.selfHealingScript ∧
     (∃ t, (startPipeline clock env s).1.logs = s.logs ++ t))

/-- What the response-independence claim asserts of two fully successful runs
from the same state: identical status-write traces ending in COMPLETED,
log lists of the same length with the same severity tags, and identical
non-log, non-script state. -/
def aiIndependentSpec (clock : Clock) (env1 env2 : GemEnv) (s : State) : Prop :=
  (startPipeline clock env1 s).2 = (startPipeline clock env2 s).2 ∧
  (startPipeline clock env1 s).1.status = .COMPLETED ∧
  (startPipeline clock env2 s).1.status = .COMPLETED ∧
  (startPipeline clock env1 s).1.logs.length = (startPipeline clock env2 s).1.logs.length ∧
  (startPipeline clock env1 s).1.logs.map (fun l => l.type) =
    (startPipeline clock env2 s).1.logs.map (fun l => l.type) ∧
  (startPipeline clock env1 s).1.provisioning = (startPipeline clock env2 s).1.provisioning ∧
  (startPipeline clock env1 s).1.projectUrl = (startPipeline clock env2 s).1.projectUrl ∧
  (startPipeline clock env1 s).1.selectedFile = (startPipeline clock env2 s).1.selectedFile ∧
  (startPipeline clock env1 s).1.inputMode = (startPipeline clock env2 s).1.inputMode

end TermApp

/-- `b` extends `a` at the end (the log list only ever grows this way). -/
def LogsExtend (a b : List LogEntry) : Prop :=
  ∃ t, b = a ++ t

/-- Whether a service result is specifically a thrown `JSON.parse`
SyntaxError. -/
def GeminiService.isParseFailure {α : Type} : Except GeminiService.GemError α → Bool
  | .error .parseFailure => true
  | _ => false

/-- Two picked archive files that agree in name and size but consist of
different bytes. -/
def fileA : JsFile := ⟨"project.zip", 1048576, fun _ => 0⟩

/-- See `fileA`. -/
def fileB : JsFile := ⟨"project.zip", 1048576, fun _ => 1⟩

/-- Upload-mode sample states holding the two byte-differing archives. -/
def TermApp.sampleUploadA : TermApp.State :=
  { TermApp.sampleUrlState with inputMode := .upload, selectedFile := some fileA }

/-- See `TermApp.sampleUploadA`. -/
def TermApp.sampleUploadB : TermApp.State :=
  { TermApp.sampleUrlState with inputMode := .upload, selectedFile := some fileB }

/-- Upload-mode sample states of the part_001 App holding the two
byte-differing archives. -/
def AppM.sampleUploadA : AppM.State :=
  { AppM.sampleUrlState with inputMode := .upload, selectedFile := some fileA }

/-- See `AppM.sampleUploadA`. -/
def AppM.sampleUploadB : AppM.State :=
  { AppM.sampleUrlState with inputMode := .upload, selectedFile := some fileB }

/-! ### Helper lemmas -/

/-- The (message, severity) projection of a log list. -/
def logsShape (l : List LogEntry) : List (String × LogType) :=
  l.map fun e => (e.message, e.type)

theorem logsShape_append (a b : List LogEntry) :
    logsShape (a ++ b) = logsShape a ++ logsShape b := by
  simp [logsShape]

theorem floorByte_le (q : ℚ) (_h0 : 0 ≤ q) (h1 : q < 1) : AppM.floorByte q ≤ 255 := by
  unfold AppM.floorByte
  have h2 : (q * 256 : ℚ) < 256 := by nlinarith
  have h3 : Int.floor (q * 256 : ℚ) < (256 : ℤ) := by
    rw [Int.floor_lt]
    exact_mod_cast h2
  omega

theorem map_map_eq_of_proj {α β : Type} (g : α → α) (proj : α → β)
    (h : ∀ a, proj (g a) = proj a) :
    ∀ l : List α, (l.map g).map proj = l.map proj := by
  intro l
  induction l with
  | nil => rfl
  | cons x xs ih => simp [h, ih]

/-- Characterisation of a Terminal.tsx run whose analysis call throws. -/
theorem TermApp.startPipeline_analyzeFail (clock : Clock) (env : TermApp.GemEnv)
    (s : TermApp.State) (e : GeminiService.GemError)
    (hmiss : TermApp.missingInput s = false)
    (he : GeminiService.analyzeBuildError TermApp.buildErrorLog none env.envKey env.analyzeCall
            = .error e) :
    TermApp.startPipeline clock env s =
      TermApp.catchFail clock e.message (TermApp.preamble clock s) := by
  unfold TermApp.missingInput at hmiss
  obtain ⟨h1, h2⟩ := Bool.or_eq_false_iff.mp hmiss
  unfold TermApp.startPipeline
  rw [h1, h2, he]
  rfl

/-- Characterisation of a Terminal.tsx run whose analysis parses to `null`. -/
theorem TermApp.startPipeline_analyzeNull (clock : Clock) (env : TermApp.GemEnv)
    (s : TermApp.State)
    (hmiss : TermApp.missingInput s = false)
    (he : GeminiService.analyzeBuildError TermApp.buildErrorLog none env.envKey env.analyzeCall
            = .ok .null) :
    TermApp.startPipeline clock env s =
      TermApp.catchFail clock "Cannot read properties of null (reading 'issueDescription')"
        (TermApp.preamble clock s) := by
  unfold TermApp.missingInput at hmiss
  obtain ⟨h1, h2⟩ := Bool.or_eq_false_iff.mp hmiss
  unfold TermApp.startPipeline
  rw [h1, h2, he]
  rfl

/-- Characterisation of a Terminal.tsx run whose analysis succeeds with a
non-null JSON value. -/
theorem TermApp.startPipeline_analyzeOk (clock : Clock) (env : TermApp.GemEnv)
    (s : TermApp.State) (j : Json)
    (hmiss : TermApp.missingInput s = false)
    (he : GeminiService.analyzeBuildError TermApp.buildErrorLog none env.envKey env.analyzeCall
            = .ok j)
    (hn : j ≠ .null) :
    TermApp.startPipeline clock env s =
      TermApp.postAnalysis clock env j (TermApp.preamble clock s) := by
  unfold TermApp.missingInput at hmiss
  obtain ⟨h1, h2⟩ := Bool.or_eq_false_iff.mp hmiss
  unfold TermApp.startPipeline
  rw [h1, h2, he]
  cases j with
  | null => exact absurd rfl hn
  | boolean b => rfl
  | num raw => rfl
  | str s => rfl
  | arr xs => rfl
  | obj fields => rfl

/-! ### The claims -/

/-- C1: for every run of the part_001 `startPipeline` that passes the source
input guard, the build loop performs exactly three scripted cycles — cycle 1
fails with the namespace error and patches `build.gradle`, cycle 2 fails with
the OutOfMemoryError and patches `MainActivity.kt`, cycle 3 succeeds — after
which the status is set to COMPLETED (the status-write trace, the appended
log lines and the final source files are all fixed). -/
theorem scripted_build_loop_three_cycles (clock : Clock) (s : AppM.State)
    (h : AppM.missingInput s = false) : AppM.scriptedLoopSpec clock s := by
  unfold AppM.scriptedLoopSpec AppM.startPipeline
  rw [h]
  refine ⟨rfl, rfl, ?_, rfl, rfl⟩
  simp only [Bool.false_eq_true, if_false]
  simp [AppM.buildLoop, AppM.logE, AppM.setSt, AppM.upd, AppM.addLog, AppM.pipelineMsgs]
  exact ⟨rfl, rfl, rfl⟩

/-- Witness for C1 at a concrete post-provisioning state with a URL. -/
theorem scripted_build_loop_three_cycles_witness :
    AppM.missingInput AppM.sampleUrlState = false ∧
    AppM.scriptedLoopSpec sampleClock AppM.sampleUrlState :=
  ⟨rfl, scripted_build_loop_three_cycles sampleClock AppM.sampleUrlState rfl⟩

/-- C2 (code bug): the status writes of a concrete valid run of the part_001
`startPipeline` include the key `GENERATING_CODE`, which the `SystemStatus`
enum of `src/types.ts` does not declare (its lookup is the JavaScript
`undefined`), so not every assigned status value is one of the eight declared
members. -/
theorem status_write_outside_declared_enum :
    StatusKey.GENERATING_CODE ∈ (AppM.startPipeline sampleClock AppM.sampleUrlState).2 ∧
    systemStatusLookup .GENERATING_CODE = none ∧
    ¬ (∀ k ∈ (AppM.startPipeline sampleClock AppM.sampleUrlState).2,
         k ∈ systemStatusMembers) := by
  have htr : (AppM.startPipeline sampleClock AppM.sampleUrlState).2 = AppM.pipelineTrace := rfl
  rw [htr]
  decide

/-- C9: when the source input is missing, the part_001 `startPipeline`
appends exactly one error entry reading `Error: Source input required.` and
returns with every other state component unchanged. -/
theorem missing_input_single_error_log (clock : Clock) (s : AppM.State)
    (h : AppM.missingInput s = true) : AppM.missingInputSpec clock s := by
  unfold AppM.missingInputSpec AppM.startPipeline
  rw [h]
  rfl

/-- Witness for C9 at a concrete state with an empty URL. -/
theorem missing_input_single_error_log_witness :
    AppM.missingInput AppM.sampleNoInputState = true ∧
    AppM.missingInputSpec sampleClock AppM.sampleNoInputState :=
  ⟨rfl, missing_input_single_error_log sampleClock AppM.sampleNoInputState rfl⟩

/-- C10: while the download progress is strictly below 100, `handleDownload`
returns immediately: no blob, no log entry, no state change. -/
theorem download_noop_below_100 (clock : Clock) (random : Nat → ℚ)
    (s : AppM.State) (h : s.downloadProgress < 100) :
    AppM.handleDownload clock random s = (s, none) := by
  unfold AppM.handleDownload
  rw [if_pos h]

/-- Witness for C10 at a concrete state with progress 0. -/
theorem download_noop_below_100_witness :
    AppM.sampleUrlState.downloadProgress < 100 ∧
    AppM.handleDownload sampleClock (fun _ => 0) AppM.sampleUrlState =
      (AppM.sampleUrlState, none) :=
  ⟨by decide,
   download_noop_below_100 sampleClock (fun _ => 0) AppM.sampleUrlState (by decide)⟩

/-- C5: once the download progress has reached 100, `handleDownload` offers a
5 * 1024 * 1024-byte in-memory blob whose first four bytes are the big-endian
0x504B0304 header and whose remaining bytes lie in [0, 255], under a filename
ending in `.apk`, and changes no state other than appending one success log
entry. -/
theorem download_blob_shape_and_frame (clock : Clock) (random : Nat → ℚ)
    (s : AppM.State) (hp : 100 ≤ s.downloadProgress)
    (hr : ∀ i, 0 ≤ random i ∧ random i < 1) :
    AppM.downloadSpec clock random s := by
  unfold AppM.downloadSpec AppM.handleDownload
  rw [if_neg (Nat.not_lt.mpr hp)]
  refine ⟨_, rfl, rfl, rfl, rfl, rfl, rfl, ?_, rfl, rfl⟩
  intro i h4 _hsize
  show (if i = 0 then 0x50 else if i = 1 then 0x4B else if i = 2 then 0x03
        else if i = 3 then 0x04 else AppM.floorByte (random i)) ≤ 255
  rw [if_neg (by omega), if_neg (by omega), if_neg (by omega), if_neg (by omega)]
  exact floorByte_le (random i) (hr i).1 (hr i).2

/-- Witness for C5 at a concrete ready state with the constant-zero random
stream. -/
theorem download_blob_shape_and_frame_witness :
    100 ≤ AppM.sampleReadyState.downloadProgress ∧
    (∀ i : Nat, 0 ≤ (fun _ => (0 : ℚ)) i ∧ (fun _ => (0 : ℚ)) i < 1) ∧
    AppM.downloadSpec sampleClock (fun _ => 0) AppM.sampleReadyState :=
  ⟨by decide, fun _ => ⟨le_refl 0, by norm_num⟩,
   download_blob_shape_and_frame sampleClock (fun _ => 0) AppM.sampleReadyState
     (by decide) (fun _ => ⟨le_refl 0, by norm_num⟩)⟩

/-- C8: each scripted self-healing patch is a map over the source-file list
that preserves every record's name, path and language, the list's length and
its order, and — applied to the pipeline's actual lists — changes the
content of exactly one record: `build.gradle` for the namespace patch and
`MainActivity.kt` for the out-of-memory patch. -/
theorem patches_modify_single_content_field :
    (∀ files : List SourceFile,
       (AppM.patchGradle files).map (fun f => (f.name, f.path, f.language)) =
         files.map (fun f => (f.name, f.path, f.language)) ∧
       (AppM.patchGradle files).length = files.length) ∧
    (∀ files : List SourceFile,
       (AppM.patchMain files).map (fun f => (f.name, f.path, f.language)) =
         files.map (fun f => (f.name, f.path, f.language)) ∧
       (AppM.patchMain files).length = files.length) ∧
    AppM.patchGradle AppM.initialFiles =
      [⟨"MainActivity.kt", "app/src/main/java/com/example/app/MainActivity.kt",
        "kotlin", AppM.mainActivityV0⟩,
       ⟨"build.gradle", "app/build.gradle", "gradle", AppM.gradleV1⟩] ∧
    AppM.gradleV1 ≠ AppM.buildGradleV0 ∧
    AppM.patchMain (AppM.patchGradle AppM.initialFiles) = AppM.finalFiles ∧
    AppM.mainActivityV1 ≠ AppM.mainActivityV0 := by
  refine ⟨?_, ?_, rfl, by decide, rfl, by decide⟩
  · intro files
    constructor
    · exact map_map_eq_of_proj _ _
        (fun f => by
          by_cases hf : (f.name == "build.gradle") = true <;> simp [hf]) files
    · simp [AppM.patchGradle]
  · intro files
    constructor
    · exact map_map_eq_of_proj _ _
        (fun f => by
          by_cases hf : (f.name == "MainActivity.kt") = true <;> simp [hf]) files
    · simp [AppM.patchMain]

theorem LogsExtend.refl (a : List LogEntry) : LogsExtend a a :=
  ⟨[], (List.append_nil a).symm⟩

theorem LogsExtend.trans {a b c : List LogEntry}
    (h1 : LogsExtend a b) (h2 : LogsExtend b c) : LogsExtend a c := by
  obtain ⟨t1, h1⟩ := h1
  obtain ⟨t2, h2⟩ := h2
  exact ⟨t1 ++ t2, by rw [h2, h1, List.append_assoc]⟩

/-- The status-write trace of the Terminal.tsx preamble. -/
theorem TermApp.preamble_trace (clock : Clock) (s : TermApp.State) :
    (TermApp.preamble clock s).2 = [.ANALYZING, .BUILDING, .SELF_HEALING] := by
  unfold TermApp.preamble
  cases hm : s.inputMode == InputMode.url <;> rfl

/-- The preamble only appends logs, sets the status and records status
writes: every other field is untouched. -/
theorem TermApp.preamble_fields (clock : Clock) (s : TermApp.State) :
    (TermApp.preamble clock s).1.status = .SELF_HEALING ∧
    (TermApp.preamble clock s).1.provisioning = s.provisioning ∧
    (TermApp.preamble clock s).1.projectUrl = s.projectUrl ∧
    (TermApp.preamble clock s).1.selectedFile = s.selectedFile ∧
    (TermApp.preamble clock s).1.inputMode = s.inputMode ∧
    (TermApp.preamble clock s).1.selfHealingScript = s.selfHealingScript := by
  unfold TermApp.preamble
  cases hm : s.inputMode == InputMode.url <;>
    exact ⟨rfl, rfl, rfl, rfl, rfl, rfl⟩

/-- The preamble appends exactly seven log entries, with fixed severities. -/
theorem TermApp.preamble_logs_types (clock : Clock) (s : TermApp.State) :
    (TermApp.preamble clock s).1.logs.map (fun l => l.type) =
      s.logs.map (fun l => l.type) ++
        [.info, .success, .info, .info, .error, .error, .ai] ∧
    (TermApp.preamble clock s).1.logs.length = s.logs.length + 7 := by
  unfold TermApp.preamble
  cases hm : s.inputMode == InputMode.url <;>
    simp [TermApp.logE, TermApp.setSt, TermApp.upd, TermApp.addLog]

/-- The preamble only extends the log list. -/
theorem TermApp.preamble_logsExtend (clock : Clock) (s : TermApp.State) :
    LogsExtend s.logs (TermApp.preamble clock s).1.logs := by
  unfold LogsExtend TermApp.preamble
  cases hm : s.inputMode == InputMode.url <;>
    simp [TermApp.logE, TermApp.setSt, TermApp.upd, TermApp.addLog,
          List.append_assoc]

/-- `catchFail` appends one error log and sets FAILED. -/
theorem TermApp.catchFail_spec (clock : Clock) (msg : String) (p : TermApp.Ctx) :
    (TermApp.catchFail clock msg p).1.status = .FAILED ∧
    (TermApp.catchFail clock msg p).2 = p.2 ++ [.FAILED] ∧
    (TermApp.catchFail clock msg p).1.logs =
      p.1.logs ++ [⟨clock p.1.logs.length, "Self-healing interrupted: " ++ msg, .error⟩] ∧
    (TermApp.catchFail clock msg p).1.selfHealingScript = p.1.selfHealingScript ∧
    (TermApp.catchFail clock msg p).1.provisioning = p.1.provisioning ∧
    (TermApp.catchFail clock msg p).1.projectUrl = p.1.projectUrl ∧
    (TermApp.catchFail clock msg p).1.selectedFile = p.1.selectedFile ∧
    (TermApp.catchFail clock msg p).1.inputMode = p.1.inputMode :=
  ⟨rfl, rfl, rfl, rfl, rfl, rfl, rfl, rfl⟩

/-- After a successful script generation, `postAnalysis` ends COMPLETED with
the script stored, writes TESTING and COMPLETED, and appends twelve log
entries whose severities do not depend on the analysis value. -/
theorem TermApp.postAnalysis_ok (clock : Clock) (env : TermApp.GemEnv) (j : Json)
    (p : TermApp.Ctx) (t : String)
    (hs : GeminiService.generateSelfHealingPythonScript none env.envKey env.scriptCall
            = .ok t) :
    (TermApp.postAnalysis clock env j p).1.status = .COMPLETED ∧
    (TermApp.postAnalysis clock env j p).2 = p.2 ++ [.TESTING, .COMPLETED] ∧
    (TermApp.postAnalysis clock env j p).1.selfHealingScript = some t ∧
    (TermApp.postAnalysis clock env j p).1.logs.map (fun l => l.type) =
      p.1.logs.map (fun l => l.type) ++
        [.ai, .ai, .warning, .info, .success, .info, .info, .info, .info,
         .success, .success, .success] ∧
    (TermApp.postAnalysis clock env j p).1.logs.length = p.1.logs.length + 12 ∧
    (TermApp.postAnalysis clock env j p).1.provisioning = p.1.provisioning ∧
    (TermApp.postAnalysis clock env j p).1.projectUrl = p.1.projectUrl ∧
    (TermApp.postAnalysis clock env j p).1.selectedFile = p.1.selectedFile ∧
    (TermApp.postAnalysis clock env j p).1.inputMode = p.1.inputMode ∧
    LogsExtend p.1.logs (TermApp.postAnalysis clock env j p).1.logs := by
  unfold TermApp.postAnalysis
  rw [hs]
  refine ⟨rfl, ?_, rfl, ?_, ?_, rfl, rfl, rfl, rfl, ?_⟩ <;>
    simp [LogsExtend, TermApp.logE, TermApp.setSt, TermApp.upd, TermApp.addLog,
          List.append_assoc]

/-- After a failed script generation, `postAnalysis` still ends COMPLETED,
leaves the script state untouched, and ends the log with the skip warning. -/
theorem TermApp.postAnalysis_scriptFail (clock : Clock) (env : TermApp.GemEnv) (j : Json)
    (p : TermApp.Ctx) (e : GeminiService.GemError)
    (hs : GeminiService.generateSelfHealingPythonScript none env.envKey env.scriptCall
            = .error e) :
    (TermApp.postAnalysis clock env j p).1.status = .COMPLETED ∧
    (TermApp.postAnalysis clock env j p).2 = p.2 ++ [.TESTING, .COMPLETED] ∧
    (TermApp.postAnalysis clock env j p).1.selfHealingScript = p.1.selfHealingScript ∧
    ((TermApp.postAnalysis clock env j p).1.logs.getLast?).map (fun l => (l.message, l.type)) =
      some ("Note: Local export script generation skipped (API constraint).", .warning) ∧
    LogsExtend p.1.logs (TermApp.postAnalysis clock env j p).1.logs := by
  unfold TermApp.postAnalysis
  rw [hs]
  refine ⟨rfl, ?_, rfl, ?_, ?_⟩
  · simp [TermApp.logE, TermApp.setSt, TermApp.upd, TermApp.addLog, List.append_assoc]
  · simp [TermApp.logE, TermApp.setSt, TermApp.upd, TermApp.addLog, List.getLast?_concat]
  · simp [LogsExtend, TermApp.logE, TermApp.setSt, TermApp.upd, TermApp.addLog,
          List.append_assoc]

/-- `postAnalysis` only extends the log list, whatever the script call did. -/
theorem TermApp.postAnalysis_logsExtend (clock : Clock) (env : TermApp.GemEnv)
    (j : Json) (p : TermApp.Ctx) :
    LogsExtend p.1.logs (TermApp.postAnalysis clock env j p).1.logs := by
  cases hs : GeminiService.generateSelfHealingPythonScript none env.envKey env.scriptCall with
  | error e =>
    obtain ⟨-, -, -, -, hext⟩ := TermApp.postAnalysis_scriptFail clock env j p e hs
    exact hext
  | ok t =>
    obtain ⟨-, -, -, -, -, -, -, -, -, hext⟩ := TermApp.postAnalysis_ok clock env j p t hs
    exact hext

/-- C3 counterexample: the "Flush Pipeline" button of the Terminal.tsx App
resets the log list of a state holding one entry to the empty list, which is
not an extension of the previous log list. -/
theorem flush_pipeline_clears_logs :
    (TermApp.flushPipeline TermApp.sampleOneLogState).logs = [] ∧
    ¬ LogsExtend TermApp.sampleOneLogState.logs
        (TermApp.flushPipeline TermApp.sampleOneLogState).logs := by
  refine ⟨rfl, ?_⟩
  rintro ⟨t, ht⟩
  rw [show (TermApp.flushPipeline TermApp.sampleOneLogState).logs = [] from rfl] at ht
  rw [show TermApp.sampleOneLogState.logs =
        [⟨"09:59:00 AM", "Environment Ready. Awaiting project instructions.", .info⟩]
      from rfl] at ht
  simp at ht

/-- C3 (amended): every modelled operation of the application except the
"Flush Pipeline" reset either leaves the log list unchanged or extends it at
the end; the Flush Pipeline reset replaces the log list with the empty
list. -/
theorem logs_append_only_except_flush :
    (∀ (clock : Clock) (s : AppM.State) (m : String) (ty : LogType),
       LogsExtend s.logs (AppM.addLog clock s m ty).logs) ∧
    (∀ (clock : Clock) (s : AppM.State) (picked : Option JsFile),
       LogsExtend s.logs (AppM.handleFileChange clock s picked).logs) ∧
    (∀ (clock : Clock) (s : AppM.State),
       LogsExtend s.logs (AppM.runProvisioning clock s).1.logs) ∧
    (∀ (clock : Clock) (s : AppM.State),
       LogsExtend s.logs (AppM.startPipeline clock s).1.logs) ∧
    (∀ (clock : Clock) (random : Nat → ℚ) (s : AppM.State),
       LogsExtend s.logs (AppM.handleDownload clock random s).1.logs) ∧
    (∀ (clock : Clock) (s : TermApp.State) (m : String) (ty : LogType),
       LogsExtend s.logs (TermApp.addLog clock s m ty).logs) ∧
    (∀ (clock : Clock) (s : TermApp.State) (picked : Option JsFile),
       LogsExtend s.logs (TermApp.handleFileChange clock s picked).logs) ∧
    (∀ (clock : Clock) (s : TermApp.State),
       LogsExtend s.logs (TermApp.runProvisioning clock s).1.logs) ∧
    (∀ (clock : Clock) (env : TermApp.GemEnv) (s : TermApp.State),
       LogsExtend s.logs (TermApp.startPipeline clock env s).1.logs) ∧
    (∀ s : TermApp.State, (TermApp.flushPipeline s).logs = []) := by
  refine ⟨?_, ?_, ?_, ?_, ?_, ?_, ?_, ?_, ?_, fun s => rfl⟩
  · intro clock s m ty
    exact ⟨_, rfl⟩
  · intro clock s picked
    cases picked with
    | none => exact LogsExtend.refl _
    | some f => exact ⟨_, rfl⟩
  · intro clock s
    unfold LogsExtend AppM.runProvisioning
    simp [AppM.logE, AppM.setSt, AppM.upd, AppM.addLog, List.append_assoc]
  · intro clock s
    cases h : AppM.missingInput s with
    | true =>
      unfold AppM.startPipeline
      rw [h]
      exact ⟨_, rfl⟩
    | false =>
      unfold AppM.startPipeline
      rw [h]
      unfold LogsExtend
      simp [AppM.buildLoop, AppM.logE, AppM.setSt, AppM.upd, AppM.addLog,
            List.append_assoc]
  · intro clock random s
    by_cases h : s.downloadProgress < 100
    · unfold AppM.handleDownload
      rw [if_pos h]
      exact LogsExtend.refl _
    · unfold AppM.handleDownload
      rw [if_neg h]
      exact ⟨_, rfl⟩
  · intro clock s m ty
    exact ⟨_, rfl⟩
  · intro clock s picked
    cases picked with
    | none => exact LogsExtend.refl _
    | some f =>
      by_cases hz : (lowerEndsWith f.name ".zip") = true <;>
        simp [LogsExtend, TermApp.handleFileChange, TermApp.addLog, hz]
  · intro clock s
    unfold LogsExtend TermApp.runProvisioning
    simp [TermApp.logE, TermApp.setSt, TermApp.upd, TermApp.addLog, List.append_assoc]
  · intro clock env s
    unfold TermApp.startPipeline
    cases hg1 : s.inputMode == InputMode.url && s.projectUrl == "" with
    | true => exact ⟨_, rfl⟩
    | false =>
      cases hg2 : s.inputMode == InputMode.upload && s.selectedFile.isNone with
      | true => exact ⟨_, rfl⟩
      | false =>
        cases ha : GeminiService.analyzeBuildError TermApp.buildErrorLog none
            env.envKey env.analyzeCall with
        | error e =>
          exact (TermApp.preamble_logsExtend clock s).trans
            ⟨_, (TermApp.catchFail_spec clock e.message _).2.2.1⟩
        | ok j =>
          cases j with
          | null =>
            exact (TermApp.preamble_logsExtend clock s).trans
              ⟨_, (TermApp.catchFail_spec clock _ _).2.2.1⟩
          | boolean b =>
            exact (TermApp.preamble_logsExtend clock s).trans
              (TermApp.postAnalysis_logsExtend clock env _ _)
          | num raw =>
            exact (TermApp.preamble_logsExtend clock s).trans
              (TermApp.postAnalysis_logsExtend clock env _ _)
          | str txt =>
            exact (TermApp.preamble_logsExtend clock s).trans
              (TermApp.postAnalysis_logsExtend clock env _ _)
          | arr xs =>
            exact (TermApp.preamble_logsExtend clock s).trans
              (TermApp.postAnalysis_logsExtend clock env _ _)
          | obj fields =>
            exact (TermApp.preamble_logsExtend clock s).trans
              (TermApp.postAnalysis_logsExtend clock env _ _)

/-- C4 counterexample: with an API key configured and a successful
generative-AI call whose response text is empty, `analyzeBuildError` still
throws (a `JSON.parse` SyntaxError) — a throw outside the claim's list of
conditions for that function. -/
theorem analyzer_throws_on_invalid_json :
    GeminiService.getApiKey none (some "key-1") = "key-1" ∧
    GeminiService.isParseFailure
      (GeminiService.analyzeBuildError TermApp.buildErrorLog none (some "key-1")
        (.ok (some ""))) = true :=
  ⟨rfl, rfl⟩

/-- C4 (amended): `analyzeBuildError` throws exactly when the key is missing,
the call fails, or the response text is not valid JSON (in particular when
it is empty or absent); `generateSelfHealingPythonScript` throws exactly when
the key is missing, the call fails, or the response text is falsy; and the
Terminal.tsx `startPipeline` catches every such error — an analysis error is
logged and ends the run FAILED, a script error is logged as a warning and
leaves the run COMPLETED — instead of propagating. -/
theorem gemini_error_conditions_and_catching :
    (∀ (errorLog : String) (manualKey envKey : Option String)
       (call : GeminiService.CallOutcome),
       isErrB (GeminiService.analyzeBuildError errorLog manualKey envKey call) = true ↔
         GeminiService.analyzeThrowCond manualKey envKey call) ∧
    (∀ (manualKey envKey : Option String) (call : GeminiService.CallOutcome),
       isErrB (GeminiService.generateSelfHealingPythonScript manualKey envKey call) = true ↔
         GeminiService.scriptThrowCond manualKey envKey call) ∧
    (∀ (clock : Clock) (env : TermApp.GemEnv) (s : TermApp.State),
       TermApp.missingInput s = false → TermApp.callerCatchSpec clock env s) := by
  refine ⟨?_, ?_, ?_⟩
  · intro errorLog manualKey envKey call
    cases call with
    | error m =>
      by_cases hk : GeminiService.getApiKey manualKey envKey = "" <;>
        simp [GeminiService.analyzeBuildError, GeminiService.analyzeThrowCond, isErrB, hk]
    | ok t =>
      by_cases hk : GeminiService.getApiKey manualKey envKey = "" <;>
        cases hj : jsonParse (t.getD "undefined") <;>
          simp [GeminiService.analyzeBuildError, GeminiService.analyzeThrowCond,
                isErrB, hk, hj]
  · intro manualKey envKey call
    cases call with
    | error m =>
      by_cases hk : GeminiService.getApiKey manualKey envKey = "" <;>
        simp [GeminiService.generateSelfHealingPythonScript,
              GeminiService.scriptThrowCond, isErrB, hk]
    | ok t =>
      cases t with
      | none =>
        by_cases hk : GeminiService.getApiKey manualKey envKey = "" <;>
          simp [GeminiService.generateSelfHealingPythonScript,
                GeminiService.scriptThrowCond, isErrB, hk]
      | some txt =>
        by_cases hk : GeminiService.getApiKey manualKey envKey = "" <;>
          by_cases ht : txt = "" <;>
            simp [GeminiService.generateSelfHealingPythonScript,
                  GeminiService.scriptThrowCond, isErrB, hk, ht]
  · intro clock env s hmiss
    constructor
    · intro e he
      rw [TermApp.startPipeline_analyzeFail clock env s e hmiss he]
      obtain ⟨hst, htr, hlg, -, -, -, -, -⟩ :=
        TermApp.catchFail_spec clock e.message (TermApp.preamble clock s)
      refine ⟨hst, ?_, ?_, ?_⟩
      · rw [htr, TermApp.preamble_trace]
        rfl
      · rw [hlg]
        simp [List.getLast?_concat]
      · exact (TermApp.preamble_logsExtend clock s).trans ⟨_, hlg⟩
    · intro j e hj hn hs
      rw [TermApp.startPipeline_analyzeOk clock env s j hmiss hj hn]
      obtain ⟨h1, -, h3, h4, h5⟩ :=
        TermApp.postAnalysis_scriptFail clock env j (TermApp.preamble clock s) e hs
      exact ⟨h1, h4, h3.trans (TermApp.preamble_fields clock s).2.2.2.2.2,
             (TermApp.preamble_logsExtend clock s).trans h5⟩

/-- Witness for C4's caller behaviour: with the source input present, a
rejected analysis call ends the run FAILED and a rejected script call leaves
it COMPLETED, in both cases only appending log lines. -/
theorem gemini_error_conditions_and_catching_witness :
    TermApp.missingInput TermApp.sampleUrlState = false ∧
    TermApp.callerCatchSpec sampleClock TermApp.envAnalyzeRejected TermApp.sampleUrlState ∧
    TermApp.callerCatchSpec sampleClock TermApp.envScriptRejected TermApp.sampleUrlState :=
  ⟨rfl,
   gemini_error_conditions_and_catching.2.2 sampleClock TermApp.envAnalyzeRejected
     TermApp.sampleUrlState rfl,
   gemini_error_conditions_and_catching.2.2 sampleClock TermApp.envScriptRejected
     TermApp.sampleUrlState rfl⟩

/-- C6: the generative-AI response texts are never executed or applied: two
fully successful Terminal.tsx runs from the same state whose environments
differ only in the response contents produce the same status-write trace
ending in COMPLETED, log lists of the same length with the same severities,
and identical non-log state apart from the exported script text (which is
exactly the cleaned response); and the part_001 `startPipeline`, whose type
does not even mention the AI responses, always produces the same fixed
patched source files. -/
theorem ai_responses_influence_only_logs_and_script
    (clock : Clock) (env1 env2 : TermApp.GemEnv) (s : TermApp.State)
    (j1 j2 : Json) (t1 t2 : String)
    (hmiss : TermApp.missingInput s = false)
    (h1 : GeminiService.analyzeBuildError TermApp.buildErrorLog none env1.envKey
            env1.analyzeCall = .ok j1)
    (hn1 : j1 ≠ .null)
    (h2 : GeminiService.analyzeBuildError TermApp.buildErrorLog none env2.envKey
            env2.analyzeCall = .ok j2)
    (hn2 : j2 ≠ .null)
    (hs1 : GeminiService.generateSelfHealingPythonScript none env1.envKey
             env1.scriptCall = .ok t1)
    (hs2 : GeminiService.generateSelfHealingPythonScript none env2.envKey
             env2.scriptCall = .ok t2) :
    TermApp.aiIndependentSpec clock env1 env2 s ∧
    (TermApp.startPipeline clock env1 s).1.selfHealingScript = some t1 ∧
    (TermApp.startPipeline clock env2 s).1.selfHealingScript = some t2 ∧
    (∀ (clock' : Clock) (s' : AppM.State), AppM.missingInput s' = false →
       (AppM.startPipeline clock' s').1.sourceFiles = AppM.finalFiles) := by
  have e1 := TermApp.startPipeline_analyzeOk clock env1 s j1 hmiss h1 hn1
  have e2 := TermApp.startPipeline_analyzeOk clock env2 s j2 hmiss h2 hn2
  obtain ⟨a1, a2, a3, a4, a5, a6, a7, a8, a9, -⟩ :=
    TermApp.postAnalysis_ok clock env1 j1 (TermApp.preamble clock s) t1 hs1
  obtain ⟨b1, b2, b3, b4, b5, b6, b7, b8, b9, -⟩ :=
    TermApp.postAnalysis_ok clock env2 j2 (TermApp.preamble clock s) t2 hs2
  unfold TermApp.aiIndependentSpec
  rw [e1, e2]
  refine ⟨⟨?_, a1, b1, ?_, ?_, ?_, ?_, ?_, ?_⟩, a3, b3, ?_⟩
  · rw [a2, b2]
  · rw [a5, b5]
  · rw [a4, b4]
  · rw [a6, b6]
  · rw [a7, b7]
  · rw [a8, b8]
  · rw [a9, b9]
  · intro clock' s' h'
    unfold AppM.startPipeline
    rw [h']
    rfl

/-- Witness for C6 at a concrete state and two concrete all-success
environments whose response texts differ. -/
theorem ai_responses_influence_only_logs_and_script_witness :
    TermApp.missingInput TermApp.sampleUrlState = false ∧
    GeminiService.analyzeBuildError TermApp.buildErrorLog none TermApp.envBothOk.envKey
      TermApp.envBothOk.analyzeCall = .ok TermApp.analysisJson1 ∧
    GeminiService.analyzeBuildError TermApp.buildErrorLog none TermApp.envBothOk2.envKey
      TermApp.envBothOk2.analyzeCall = .ok (.obj []) ∧
    GeminiService.generateSelfHealingPythonScript none TermApp.envBothOk.envKey
      TermApp.envBothOk.scriptCall = .ok "print(1)" ∧
    GeminiService.generateSelfHealingPythonScript none TermApp.envBothOk2.envKey
      TermApp.envBothOk2.scriptCall = .ok "print(2)" ∧
    (TermApp.aiIndependentSpec sampleClock TermApp.envBothOk TermApp.envBothOk2
       TermApp.sampleUrlState ∧
     (TermApp.startPipeline sampleClock TermApp.envBothOk
        TermApp.sampleUrlState).1.selfHealingScript = some "print(1)" ∧
     (TermApp.startPipeline sampleClock TermApp.envBothOk2
        TermApp.sampleUrlState).1.selfHealingScript = some "print(2)" ∧
     (∀ (clock' : Clock) (s' : AppM.State), AppM.missingInput s' = false →
        (AppM.startPipeline clock' s').1.sourceFiles = AppM.finalFiles)) :=
  ⟨rfl, rfl, rfl, rfl, rfl,
   ai_responses_influence_only_logs_and_script sampleClock TermApp.envBothOk
     TermApp.envBothOk2 TermApp.sampleUrlState TermApp.analysisJson1 (.obj [])
     "print(1)" "print(2)" rfl rfl
     (by unfold TermApp.analysisJson1; exact fun h => nomatch h)
     rfl (fun h => nomatch h) rfl rfl⟩

/-- C7: the bytes of the picked archive are never read: the file-change
handlers of both App variants and both `startPipeline`s behave identically on
files (or states) that agree in file name and size, whatever the file
contents are. -/
theorem zip_bytes_never_read :
    (∀ (clock : Clock) (s : TermApp.State) (f1 f2 : JsFile),
       AppM.fileObs f1 = AppM.fileObs f2 →
       TermApp.eqUpToFileBytes (TermApp.handleFileChange clock s (some f1))
         (TermApp.handleFileChange clock s (some f2))) ∧
    (∀ (clock : Clock) (s : AppM.State) (f1 f2 : JsFile),
       AppM.fileObs f1 = AppM.fileObs f2 →
       AppM.eqUpToFileBytes (AppM.handleFileChange clock s (some f1))
         (AppM.handleFileChange clock s (some f2))) ∧
    (∀ (clock : Clock) (env : TermApp.GemEnv) (s1 s2 : TermApp.State),
       s1.status = s2.status → s1.logs = s2.logs → s1.provisioning = s2.provisioning →
       s1.projectUrl = s2.projectUrl → s1.inputMode = s2.inputMode →
       s1.selfHealingScript = s2.selfHealingScript →
       s1.selectedFile.map AppM.fileObs = s2.selectedFile.map AppM.fileObs →
       (TermApp.startPipeline clock env s1).2 = (TermApp.startPipeline clock env s2).2 ∧
       TermApp.eqUpToFileBytes (TermApp.startPipeline clock env s1).1
         (TermApp.startPipeline clock env s2).1) ∧
    (∀ (clock : Clock) (s1 s2 : AppM.State),
       s1.status = s2.status → s1.logs = s2.logs → s1.provisioning = s2.provisioning →
       s1.projectUrl = s2.projectUrl → s1.inputMode = s2.inputMode →
       s1.selfHealingScript = s2.selfHealingScript → s1.retryCount = s2.retryCount →
       s1.activeTab = s2.activeTab → s1.sourceFiles = s2.sourceFiles →
       s1.selectedSourceIndex = s2.selectedSourceIndex →
       s1.downloadProgress = s2.downloadProgress →
       s1.isPreparingDownload = s2.isPreparingDownload →
       s1.selectedFile.map AppM.fileObs = s2.selectedFile.map AppM.fileObs →
       (AppM.startPipeline clock s1).2 = (AppM.startPipeline clock s2).2 ∧
       AppM.eqUpToFileBytes (AppM.startPipeline clock s1).1
         (AppM.startPipeline clock s2).1) := by
  refine ⟨?_, ?_, ?_, ?_⟩
  · intro clock s f1 f2 hobs
    have hn : f1.name = f2.name := congrArg Prod.fst hobs
    have hsz : f1.size = f2.size := congrArg Prod.snd hobs
    by_cases hz : (lowerEndsWith f2.name ".zip") = true <;>
      simp [TermApp.eqUpToFileBytes, TermApp.handleFileChange, TermApp.addLog,
            AppM.fileObs, hz, hn, hsz]
  · intro clock s f1 f2 hobs
    have hn : f1.name = f2.name := congrArg Prod.fst hobs
    have hsz : f1.size = f2.size := congrArg Prod.snd hobs
    simp [AppM.eqUpToFileBytes, AppM.handleFileChange, AppM.addLog,
          AppM.fileObs, hn, hsz]
  · intro clock env s1 s2 hst hlg hpv hpu him hsh hsf
    obtain ⟨st1, lg1, pv1, pu1, sf1, im1, sh1⟩ := s1
    obtain ⟨st2, lg2, pv2, pu2, sf2, im2, sh2⟩ := s2
    dsimp only at hst hlg hpv hpu him hsh hsf
    subst hst hlg hpv hpu him hsh
    cases sf1 with
    | none =>
      cases sf2 with
      | none => exact ⟨rfl, rfl, rfl, rfl, rfl, rfl, rfl, rfl⟩
      | some f2 => simp [AppM.fileObs] at hsf
    | some f1 =>
      cases sf2 with
      | none => simp [AppM.fileObs] at hsf
      | some f2 =>
        simp only [Option.map_some', AppM.fileObs, Option.some.injEq, Prod.mk.injEq] at hsf
        obtain ⟨hn, hsz⟩ := hsf
        cases im1 with
        | url =>
          by_cases hp : pu1 = ""
          · simp [TermApp.startPipeline, TermApp.eqUpToFileBytes, TermApp.addLog,
                  AppM.fileObs, hp, hn, hsz]
          · cases ha : GeminiService.analyzeBuildError TermApp.buildErrorLog none
                env.envKey env.analyzeCall with
            | error e =>
              simp [TermApp.startPipeline, TermApp.eqUpToFileBytes, TermApp.catchFail,
                    TermApp.preamble, TermApp.logE, TermApp.setSt, TermApp.upd,
                    TermApp.addLog, jsOptName, AppM.fileObs, hp, hn, hsz, ha]
            | ok j =>
              cases hscr : GeminiService.generateSelfHealingPythonScript none
                  env.envKey env.scriptCall <;>
                cases j <;>
                  simp [TermApp.startPipeline, TermApp.eqUpToFileBytes, TermApp.catchFail,
                        TermApp.postAnalysis, TermApp.preamble, TermApp.logE,
                        TermApp.setSt, TermApp.upd, TermApp.addLog, jsOptName,
                        AppM.fileObs, hp, hn, hsz, ha, hscr]
        | upload =>
          cases ha : GeminiService.analyzeBuildError TermApp.buildErrorLog none
              env.envKey env.analyzeCall with
          | error e =>
            simp [TermApp.startPipeline, TermApp.eqUpToFileBytes, TermApp.catchFail,
                  TermApp.preamble, TermApp.logE, TermApp.setSt, TermApp.upd,
                  TermApp.addLog, jsOptName, AppM.fileObs, hn, hsz, ha]
          | ok j =>
            cases hscr : GeminiService.generateSelfHealingPythonScript none
                env.envKey env.scriptCall <;>
              cases j <;>
                simp [TermApp.startPipeline, TermApp.eqUpToFileBytes, TermApp.catchFail,
                      TermApp.postAnalysis, TermApp.preamble, TermApp.logE,
                      TermApp.setSt, TermApp.upd, TermApp.addLog, jsOptName,
                      AppM.fileObs, hn, hsz, ha, hscr]
  · intro clock s1 s2 hst hlg hpv hpu him hsh hrc hat hsrc hssi hdp hipd hsf
    obtain ⟨st1, lg1, pv1, pu1, sf1, im1, sh1, rc1, at1, src1, ssi1, dp1, ipd1⟩ := s1
    obtain ⟨st2, lg2, pv2, pu2, sf2, im2, sh2, rc2, at2, src2, ssi2, dp2, ipd2⟩ := s2
    dsimp only at hst hlg hpv hpu him hsh hrc hat hsrc hssi hdp hipd hsf
    subst hst hlg hpv hpu him hsh hrc hat hsrc hssi hdp hipd
    cases sf1 with
    | none =>
      cases sf2 with
      | none =>
        exact ⟨rfl, rfl, rfl, rfl, rfl, rfl, rfl, rfl, rfl, rfl, rfl, rfl, rfl, rfl⟩
      | some f2 => simp [AppM.fileObs] at hsf
    | some f1 =>
      cases sf2 with
      | none => simp [AppM.fileObs] at hsf
      | some f2 =>
        simp only [Option.map_some', AppM.fileObs, Option.some.injEq, Prod.mk.injEq] at hsf
        obtain ⟨hn, hsz⟩ := hsf
        cases im1 with
        | url =>
          by_cases hp : pu1 = ""
          · simp [AppM.startPipeline, AppM.missingInput, AppM.eqUpToFileBytes,
                  AppM.addLog, AppM.fileObs, hp, hn, hsz]
          · simp [AppM.startPipeline, AppM.missingInput, AppM.eqUpToFileBytes,
                  AppM.buildLoop, AppM.logE, AppM.setSt, AppM.upd, AppM.addLog,
                  AppM.fileObs, hp, hn, hsz]
        | upload =>
          simp [AppM.startPipeline, AppM.missingInput, AppM.eqUpToFileBytes,
                AppM.buildLoop, AppM.logE, AppM.setSt, AppM.upd, AppM.addLog,
                AppM.fileObs, hn, hsz]

/-- Witness for C7 at the two concrete byte-differing archives. -/
theorem zip_bytes_never_read_witness :
    AppM.fileObs fileA = AppM.fileObs fileB ∧
    TermApp.eqUpToFileBytes
      (TermApp.handleFileChange sampleClock TermApp.sampleUrlState (some fileA))
      (TermApp.handleFileChange sampleClock TermApp.sampleUrlState (some fileB)) ∧
    AppM.eqUpToFileBytes
      (AppM.handleFileChange sampleClock AppM.sampleUrlState (some fileA))
      (AppM.handleFileChange sampleClock AppM.sampleUrlState (some fileB)) ∧
    ((TermApp.startPipeline sampleClock TermApp.envBothOk TermApp.sampleUploadA).2 =
       (TermApp.startPipeline sampleClock TermApp.envBothOk TermApp.sampleUploadB).2 ∧
     TermApp.eqUpToFileBytes
       (TermApp.startPipeline sampleClock TermApp.envBothOk TermApp.sampleUploadA).1
       (TermApp.startPipeline sampleClock TermApp.envBothOk TermApp.sampleUploadB).1) ∧
    ((AppM.startPipeline sampleClock AppM.sampleUploadA).2 =
       (AppM.startPipeline sampleClock AppM.sampleUploadB).2 ∧
     AppM.eqUpToFileBytes (AppM.startPipeline sampleClock AppM.sampleUploadA).1
       (AppM.startPipeline sampleClock AppM.sampleUploadB).1) :=
  ⟨rfl,
   zip_bytes_never_read.1 sampleClock TermApp.sampleUrlState fileA fileB rfl,
   zip_bytes_never_read.2.1 sampleClock AppM.sampleUrlState fileA fileB rfl,
   zip_bytes_never_read.2.2.1 sampleClock TermApp.envBothOk TermApp.sampleUploadA
     TermApp.sampleUploadB rfl rfl rfl rfl rfl rfl rfl,
   zip_bytes_never_read.2.2.2 sampleClock AppM.sampleUploadA AppM.sampleUploadB
     rfl rfl rfl rfl rfl rfl rfl rfl rfl rfl rfl rfl rfl⟩
